import Mathlib

/-!
Verification of the gomedia VP8/VP9 header parsers and the RTP VP8
depacketizer.  Go byte slices are modelled as `List Nat` (each entry one
byte), Go's `(T, error)` returns as `Except String T` carrying the exact
error strings of the source, and Go index/slice panics as `Option.none`.
-/

/-- VP8 frame tag, from `vp8.go` (`VP8FrameTag`). -/
structure VP8FrameTag where
  FrameType : Nat
  Version : Nat
  Display : Nat
  FirstPartSize : Nat
deriving DecidableEq, Repr

/-- VP8 key-frame head, from `vp8.go` (`VP8KeyFrameHead`). -/
structure VP8KeyFrameHead where
  Width : Nat
  Height : Nat
  HorizScale : Nat
  VertScale : Nat
deriving DecidableEq, Repr

/-- Source function `DecodeFrameTag` from `vp8.go` (identical in both
source variants): packs the first three bytes little-endian into `tmp`
and extracts the bit fields. -/
def DecodeFrameTag (frame : List Nat) : Except String VP8FrameTag :=
  if frame.length < 3 then .error "frame bytes < 3"
  else
    let tmp : Nat := ((frame.getD 2 0) <<< 16) ||| ((frame.getD 1 0) <<< 8) ||| (frame.getD 0 0)
    .ok { FrameType := tmp &&& 0x01
          Version := (tmp >>> 1) &&& 0x07
          Display := (tmp >>> 4) &&& 0x01
          FirstPartSize := (tmp >>> 5) &&& 0x7FFFF }

/-- Reference tag assembly following the spec's words (§4.2): of the
24-bit little-endian-packed integer `t`, bit 0 is the frame type,
bits 1-3 the version, bit 4 the display flag and bits 5-23 the first
partition size.  Used to state the refinement in the claim about
`DecodeFrameTag`. -/
def frameTagOfPacked (t : Nat) : VP8FrameTag :=
  { FrameType := t % 2, Version := t / 2 % 8, Display := t / 16 % 2,
    FirstPartSize := t / 32 % 524288 }

/-- Source function `DecodeKeyFrameHead` from `vp8.go` (identical in both
source variants).  The length-guard error string really is
`"frame bytes < 3"` in the source even though the guard is `< 7`. -/
def DecodeKeyFrameHead (frame : List Nat) : Except String VP8KeyFrameHead :=
  if frame.length < 7 then .error "frame bytes < 3"
  else if frame.getD 0 0 ≠ 0x9d ∨ frame.getD 1 0 ≠ 0x01 ∨ frame.getD 2 0 ≠ 0x2a then
    .error "not find Start code"
  else
    .ok { Width := ((frame.getD 4 0 &&& 0x3f) <<< 8) ||| frame.getD 3 0
          HorizScale := frame.getD 4 0 >>> 6
          Height := ((frame.getD 6 0 &&& 0x3f) <<< 8) ||| frame.getD 5 0
          VertScale := frame.getD 6 0 >>> 6 }

/-- Reference key-frame head assembly following the spec's words (§4.2):
width is the low 14 bits of the little-endian 16-bit pair at offsets 3-4,
horiz_scale the top 2 bits of byte 4, and height and vert_scale the same
at offsets 5-6.  Used to state the refinement in the claim about
`DecodeKeyFrameHead`. -/
def keyFrameHeadOfBytes (f3 f4 f5 f6 : Nat) : VP8KeyFrameHead :=
  { Width := (f3 + 256 * f4) % 16384, HorizScale := f4 / 64,
    Height := (f5 + 256 * f6) % 16384, VertScale := f6 / 64 }

/-- Source function `IsVP8KeyFrame` from `vp8.go`. -/
def IsVP8KeyFrame (frame : List Nat) : Bool :=
  match DecodeFrameTag frame with
  | .error _ => false
  | .ok tag => tag.FrameType == 0

/-- Source function `IsKeyFrame` from the second source variant
(`part_000`); same body as `IsVP8KeyFrame`. -/
def IsKeyFrame (frame : List Nat) : Bool :=
  match DecodeFrameTag frame with
  | .error _ => false
  | .ok tag => tag.FrameType == 0

/-- Source function `GetVP8Resloution` from `vp8.go`: no key-frame check,
goes straight to `DecodeKeyFrameHead(frame[3:])`.  The Go slice
`frame[3:]` panics when `len(frame) < 3`; that panic is modelled as
`none`. -/
def GetVP8Resloution (frame : List Nat) : Option (Except String (Nat × Nat)) :=
  if frame.length < 3 then none
  else some (match DecodeKeyFrameHead (frame.drop 3) with
    | .error e => .error e
    | .ok head => .ok (head.Width, head.Height))

/-- Source function `GetResloution` from the second source variant
(`part_000`): rejects non-key frames first, then parses the key-frame
head after the 3-byte tag. -/
def GetResloution (frame : List Nat) : Except String (Nat × Nat) :=
  if IsKeyFrame frame then
    match DecodeKeyFrameHead (frame.drop 3) with
    | .error e => .error e
    | .ok head => .ok (head.Width, head.Height)
  else .error "the frame is not Key frame"

/-- Modelled from the spec: the repository's `BitStream` type
(`NewBitStream` and its `GetBits`/`SkipBits` methods, used by
`GetVP9Resloution`) is not among the provided source files; per §4.1 of the
spec it is a sequential MSB-first bit cursor over an immutable byte buffer
that fails on underflow.  `data` is the byte buffer, `pos` the bit offset. -/
structure BitStream where
  data : List Nat
  pos : Nat
deriving DecidableEq, Repr

/-- Modelled from the spec: bit `i` of the buffer, MSB-first
(bit 0 = most-significant bit of byte 0). -/
def bitAt (data : List Nat) (i : Nat) : Nat :=
  ((data.getD (i / 8) 0) >>> (7 - i % 8)) &&& 1

/-- Modelled from the spec: value of the `n` bits starting at bit `p`,
MSB-first across byte boundaries. -/
def getBitsVal (data : List Nat) (p n : Nat) : Nat :=
  (List.range n).foldl (fun acc i => 2 * acc + bitAt data (p + i)) 0

/-- Modelled from the spec: `NewBitStream` starts the cursor at bit 0. -/
def NewBitStream (frame : List Nat) : BitStream :=
  { data := frame, pos := 0 }

/-- Modelled from the spec: `GetBits(n)` reads `n` bits MSB-first and
advances; underflow (request past the end of the buffer) fails and is what
`GetVP9Resloution` converts into its parse error (`none` here). -/
def GetBits (bs : BitStream) (n : Nat) : Option (Nat × BitStream) :=
  if bs.pos + n ≤ 8 * bs.data.length then
    some (getBitsVal bs.data bs.pos n, { bs with pos := bs.pos + n })
  else none

/-- Modelled from the spec: `SkipBits(n)` advances the cursor without
returning a value; fails on underflow like `GetBits`. -/
def SkipBits (bs : BitStream) (n : Nat) : Option BitStream :=
  if bs.pos + n ≤ 8 * bs.data.length then some { bs with pos := bs.pos + n }
  else none

/-- Frame-size tail of `GetVP9Resloution` (`vp9.go` lines 113-126):
one bit `render_and_frame_size_different`, an optional 32-bit render-size
skip, then the two 16-bit size-minus-one fields, each returned plus one. -/
def vp9FrameSize (bs : BitStream) : Option (Nat × Nat) :=
  match GetBits bs 1 with
  | none => none
  | some (renderAndFrameSizeDifferent, bs1) =>
    let afterRender : Option BitStream :=
      if renderAndFrameSizeDifferent = 1 then
        match SkipBits bs1 16 with
        | none => none
        | some bs2 => SkipBits bs2 16
      else some bs1
    match afterRender with
    | none => none
    | some bs3 =>
      match GetBits bs3 16 with
      | none => none
      | some (widthMinus1, bs4) =>
        match GetBits bs4 16 with
        | none => none
        | some (heightMinus1, _) => some (widthMinus1 + 1, heightMinus1 + 1)

/-- Source function `GetVP9Resloution` from `vp9.go`.  The Go function
recovers any out-of-bounds panic of the bit reader into an error return;
here every bit-reader failure propagates as `none`. -/
def GetVP9Resloution (frame : List Nat) : Option (Nat × Nat) := do
  let bs := NewBitStream frame
  let bs ← SkipBits bs 2
  let (profileHigh, bs) ← GetBits bs 1
  let (profileLow, bs) ← GetBits bs 1
  let profile := (profileHigh <<< 1) ||| profileLow
  let bs ← if profile = 3 then SkipBits bs 1 else pure bs
  let (showExistingFrame, bs) ← GetBits bs 1
  let bs ← if showExistingFrame = 1 then SkipBits bs 3 else pure bs
  let bs ← SkipBits bs 1
  let bs ← SkipBits bs 1
  let bs ← SkipBits bs 1
  let bs ← SkipBits bs 24
  let bs ← if profile ≥ 2 then do
      let (highBitdepth, bs) ← GetBits bs 1
      if highBitdepth = 1 then SkipBits bs 1 else pure bs
    else pure bs
  let (colorSpace, bs) ← GetBits bs 3
  let bs ← if colorSpace ≠ 7 then do
      let bs ← SkipBits bs 1
      if profile = 1 ∨ profile = 3 then do
        let bs ← SkipBits bs 2
        SkipBits bs 1
      else pure bs
    else
      if profile = 1 ∨ profile = 3 then SkipBits bs 1 else pure bs
  vp9FrameSize bs

/-- Source function `CreateVP9VpcCExtradata` from `vp9.go`: reads only
byte 0 (profile bits); the unguarded `keyframe[0]` access panics on an
empty slice, modelled as `none`.  Otherwise builds the fixed 8-byte vpcC
record. -/
def CreateVP9VpcCExtradata (keyframe : List Nat) : Option (List Nat) :=
  match keyframe with
  | [] => none
  | b :: _ =>
    let profile := (b >>> 4) &&& 0x03
    let bitDepth : Nat := if profile = 2 ∨ profile = 3 then 10 else 8
    let chromaSubsampling : Nat := 0
    let videoFullRangeFlag : Nat := 0
    some [profile, 0,
          ((bitDepth &&& 0x0F) <<< 4) ||| ((chromaSubsampling &&& 0x07) <<< 1) |||
            (videoFullRangeFlag &&& 0x01),
          2, 2, 2, 0, 0]

/-- Decoded transport-packet header view (the fields of `RtpPacket.Header`
that `UnPack` consults; the raw-bytes decoder is the external collaborator
of spec §6). -/
structure RtpHeader where
  SequenceNumber : Nat
  Timestamp : Nat
  Marker : Nat
deriving DecidableEq, Repr

/-- Decoded transport packet: header plus payload bytes. -/
structure RtpPacket where
  Header : RtpHeader
  Payload : List Nat
deriving DecidableEq, Repr

/-- One invocation of the depacketizer's `onFrame` callback:
`(frame bytes, timestamp, lost)`. -/
structure FrameEvent where
  frameData : List Nat
  timestamp : Nat
  lost : Bool
deriving DecidableEq, Repr

/-- Depacketizer state, from `VP8UnPacker` in the rtp source file
(`frameBuffer`, `timestamp`, `lastSequence`, `lost`, `building`). -/
structure VP8UnPacker where
  frameBuffer : List Nat
  timestamp : Nat
  lastSequence : Nat
  lost : Bool
  building : Bool
deriving DecidableEq, Repr

/-- Source constructor `NewVP8UnPacker`: empty buffer, all other fields at
their Go zero values. -/
def NewVP8UnPacker : VP8UnPacker :=
  { frameBuffer := [], timestamp := 0, lastSequence := 0, lost := false, building := false }

/-- Payload-descriptor length computation inside `UnPack` (rtp source,
the `headerLength` block): mandatory 1 byte; X bit adds the extension
byte; its I bit adds a 1- or 2-byte picture ID (by the picture-ID byte's
high bit); L adds 1; T or K adds 1.  The two length checks inside this
block are hard errors in the source, with these exact messages. -/
def vp8DescriptorLength (payload : List Nat) : Except String Nat :=
  if payload.getD 0 0 &&& 0x80 > 0 then
    if payload.length < 2 then .error "invalid vp8 payload: short extended header"
    else
      let extHdr := payload.getD 1 0
      let afterPictureId : Except String Nat :=
        if extHdr &&& 0x80 > 0 then
          if payload.length < 3 then .error "invalid vp8 payload: short picture id"
          else if payload.getD 2 0 &&& 0x80 > 0 then .ok 4
          else .ok 3
        else .ok 2
      match afterPictureId with
      | .error e => .error e
      | .ok hl =>
        .ok (hl + (if extHdr &&& 0x40 > 0 then 1 else 0) +
             (if extHdr &&& 0x20 > 0 ∨ extHdr &&& 0x10 > 0 then 1 else 0))
  else .ok 1

/-- Frame-boundary block of `UnPack`: on a new group (not building, or a
different timestamp) flush a non-empty in-progress buffer as a lost frame
and reset; otherwise flag a sequence gap (16-bit arithmetic) on the
current group.  Returns the updated state and the flush events. -/
def boundaryStep (u : VP8UnPacker) (pkg : RtpPacket) : VP8UnPacker × List FrameEvent :=
  if u.building = false ∨ pkg.Header.Timestamp ≠ u.timestamp then
    ({ frameBuffer := [], timestamp := pkg.Header.Timestamp,
       lastSequence := pkg.Header.SequenceNumber, lost := false, building := true },
     if u.building = true ∧ u.frameBuffer ≠ [] then
       [{ frameData := u.frameBuffer, timestamp := u.timestamp, lost := true }]
     else [])
  else
    (if (u.lastSequence + 1) % 65536 ≠ pkg.Header.SequenceNumber then
       { u with lost := true }
     else u, [])

/-- Source method `UnPack` from the rtp source file, on an
already-decoded packet (the raw `RtpPacket.Decode` step is the external
collaborator of spec §6).  Returns the Go error value, the state after
the call, and the `onFrame` callback invocations in order. -/
def UnPack (u : VP8UnPacker) (pkg : RtpPacket) :
    Except String Unit × VP8UnPacker × List FrameEvent :=
  if pkg.Payload.length < 1 then
    (.error "vp8 rtp packet payload is empty", u, [])
  else
    let bf := boundaryStep u pkg
    let u2 := { bf.1 with lastSequence := pkg.Header.SequenceNumber }
    match vp8DescriptorLength pkg.Payload with
    | .error e => (.error e, u2, bf.2)
    | .ok headerLength =>
      let u3 :=
        if pkg.Payload.length < headerLength then { u2 with lost := true }
        else { u2 with frameBuffer := u2.frameBuffer ++ pkg.Payload.drop headerLength }
      if pkg.Header.Marker = 1 then
        (.ok (), { u3 with building := false, frameBuffer := [] },
         bf.2 ++ [{ frameData := u3.frameBuffer, timestamp := u3.timestamp, lost := u3.lost }])
      else (.ok (), u3, bf.2)

/-- State invariant of spec §3: the frame buffer is non-empty only while
`building` is true. -/
def UnPackerInv (u : VP8UnPacker) : Prop :=
  u.frameBuffer ≠ [] → u.building = true

/-- Packet whose payload sets the X bit but has no extension byte: the
descriptor is truncated inside its own prefix. -/
def truncatedPkt : RtpPacket :=
  { Header := { SequenceNumber := 7, Timestamp := 5, Marker := 0 }, Payload := [0x80] }

/-- Packet whose descriptor prefix parses (X and L bits set, length 3)
but whose 2-byte payload is shorter than the computed length. -/
def shortDescPkt : RtpPacket :=
  { Header := { SequenceNumber := 1, Timestamp := 9, Marker := 0 }, Payload := [0xC0, 0x40] }

/-- Packet with an empty payload. -/
def emptyPkt : RtpPacket :=
  { Header := { SequenceNumber := 3, Timestamp := 4, Marker := 0 }, Payload := [] }

/-- Depacketizer state mid-build for timestamp 100 with buffered bytes. -/
def buildingState : VP8UnPacker :=
  { frameBuffer := [1, 2, 3], timestamp := 100, lastSequence := 5,
    lost := false, building := true }

/-- Packet for a different timestamp than `buildingState` is building. -/
def newTsPkt : RtpPacket :=
  { Header := { SequenceNumber := 6, Timestamp := 101, Marker := 0 }, Payload := [0x00, 0xCC] }

/-- Depacketizer state mid-build at sequence number 10. -/
def gapState : VP8UnPacker :=
  { frameBuffer := [], timestamp := 100, lastSequence := 10,
    lost := false, building := true }

/-- Same-timestamp packet with sequence number 12, a gap after 10. -/
def gapPkt : RtpPacket :=
  { Header := { SequenceNumber := 12, Timestamp := 100, Marker := 0 }, Payload := [0x00] }

/-- Ordinary first packet of a group. -/
def firstPkt : RtpPacket :=
  { Header := { SequenceNumber := 10, Timestamp := 100, Marker := 0 }, Payload := [0x00, 0xAA] }

lemma lor_shiftLeft_eq_add (b k a : Nat) (h : a < 2 ^ k) :
    (b <<< k) ||| a = b * 2 ^ k + a :=
  calc (b <<< k) ||| a = 2 ^ k * b ||| a := by rw [Nat.shiftLeft_eq, Nat.mul_comm]
    _ = 2 ^ k * b + a := (Nat.mul_add_lt_is_or h b).symm
    _ = b * 2 ^ k + a := by rw [Nat.mul_comm]

lemma pack3_eq (a b c : Nat) (ha : a < 256) (hb : b < 256) :
    ((c <<< 16) ||| (b <<< 8)) ||| a = a + 256 * b + 65536 * c := by
  rw [Nat.lor_assoc]
  have h1 : (b <<< 8) ||| a = b * 2 ^ 8 + a := lor_shiftLeft_eq_add b 8 a (by norm_num [ha])
  rw [h1]
  have h2 : (c <<< 16) ||| (b * 2 ^ 8 + a) = c * 2 ^ 16 + (b * 2 ^ 8 + a) :=
    lor_shiftLeft_eq_add c 16 _ (by norm_num; omega)
  rw [h2]; norm_num; omega

lemma and_mask_mod (x n : Nat) : x &&& (2 ^ n - 1) = x % 2 ^ n :=
  Nat.and_pow_two_sub_one_eq_mod x n

lemma width_pack (x y : Nat) (hx : x < 256) :
    ((y &&& 0x3f) <<< 8) ||| x = (x + 256 * y) % 16384 := by
  have hm : y &&& 0x3f = y % 64 := by
    have := and_mask_mod y 6; norm_num at this; exact this
  rw [hm, lor_shiftLeft_eq_add _ 8 _ (by norm_num [hx])]
  norm_num
  omega

lemma getBitsVal_one (d : List Nat) (p : Nat) : getBitsVal d p 1 = bitAt d p := by
  simp [getBitsVal, List.range_succ]

lemma GetBits_eq (d : List Nat) (p n : Nat) (h : p + n ≤ 8 * d.length) :
    GetBits { data := d, pos := p } n =
      some (getBitsVal d p n, { data := d, pos := p + n }) := by
  simp [GetBits, h]

lemma SkipBits_eq (d : List Nat) (p n : Nat) (h : p + n ≤ 8 * d.length) :
    SkipBits { data := d, pos := p } n = some { data := d, pos := p + n } := by
  simp [SkipBits, h]

lemma vp9fs_render_set (d : List Nat) (p : Nat) (hbit : bitAt d p = 1)
    (hlen : p + 65 ≤ 8 * d.length) :
    vp9FrameSize { data := d, pos := p } =
      some (getBitsVal d (p + 33) 16 + 1, getBitsVal d (p + 49) 16 + 1) := by
  rw [vp9FrameSize]
  rw [GetBits_eq d p 1 (by omega)]
  simp only [getBitsVal_one, hbit, if_true, eq_self_iff_true]
  simp only [SkipBits_eq d (p + 1) 16 (by omega), SkipBits_eq d (p + 1 + 16) 16 (by omega),
    GetBits_eq d (p + 1 + 16 + 16) 16 (by omega),
    GetBits_eq d (p + 1 + 16 + 16 + 16) 16 (by omega)]

lemma vp9fs_render_unset (d : List Nat) (p : Nat) (hbit : bitAt d p = 0)
    (hlen : p + 33 ≤ 8 * d.length) :
    vp9FrameSize { data := d, pos := p } =
      some (getBitsVal d (p + 1) 16 + 1, getBitsVal d (p + 17) 16 + 1) := by
  rw [vp9FrameSize]
  rw [GetBits_eq d p 1 (by omega)]
  simp only [getBitsVal_one, hbit]
  rw [if_neg (by decide)]
  simp only [GetBits_eq d (p + 1) 16 (by omega), GetBits_eq d (p + 1 + 16) 16 (by omega)]

lemma payload_len_pos {pkg : RtpPacket} (hp : pkg.Payload ≠ []) :
    ¬ pkg.Payload.length < 1 := by
  cases hpp : pkg.Payload
  · exact absurd hpp hp
  · simp [hpp]

lemma boundaryStep_building (u : VP8UnPacker) (pkg : RtpPacket) :
    (boundaryStep u pkg).1.building = true := by
  unfold boundaryStep
  split
  · rfl
  · rename_i h
    push_neg at h
    have hb : u.building = true := by
      cases hu : u.building
      · exact absurd hu h.1
      · rfl
    split <;> simp [hb]

lemma boundaryStep_buffer (u : VP8UnPacker) (pkg : RtpPacket) :
    (boundaryStep u pkg).1.frameBuffer = [] ∨
    (boundaryStep u pkg).1.frameBuffer = u.frameBuffer := by
  unfold boundaryStep
  split
  · exact Or.inl rfl
  · split
    · exact Or.inr rfl
    · exact Or.inr rfl

lemma boundaryStep_flush (u : VP8UnPacker) (pkg : RtpPacket)
    (hb : u.building = true) (hbuf : u.frameBuffer ≠ [])
    (hts : pkg.Header.Timestamp ≠ u.timestamp) :
    boundaryStep u pkg =
      ({ frameBuffer := [], timestamp := pkg.Header.Timestamp,
         lastSequence := pkg.Header.SequenceNumber, lost := false, building := true },
       [{ frameData := u.frameBuffer, timestamp := u.timestamp, lost := true }]) := by
  unfold boundaryStep
  rw [if_pos (Or.inr hts), if_pos ⟨hb, hbuf⟩]

lemma boundaryStep_gap (u : VP8UnPacker) (pkg : RtpPacket)
    (hb : u.building = true) (hts : pkg.Header.Timestamp = u.timestamp)
    (hgap : (u.lastSequence + 1) % 65536 ≠ pkg.Header.SequenceNumber) :
    boundaryStep u pkg = ({ u with lost := true }, []) := by
  unfold boundaryStep
  rw [if_neg (by simp [hb, hts]), if_pos hgap]

/-- Claim C1, counterexample: a packet whose payload is the single byte
`0x80` (X bit set, so the computed descriptor length is at least 2 and
the payload is shorter than it) makes `UnPack` return the hard error
`"invalid vp8 payload: short extended header"` instead of succeeding with
the lost flag set, contradicting the claim that such packets never
produce a hard error. -/
theorem unpack_truncated_descriptor_counterexample :
    (UnPack NewVP8UnPacker truncatedPkt).1 =
      .error "invalid vp8 payload: short extended header" ∧
    ¬ (UnPack NewVP8UnPacker truncatedPkt).1 = .ok () :=
  ⟨rfl, fun h => Except.noConfusion h⟩

/-- Claim C1, amended: whenever the descriptor-length computation itself
succeeds (the prefix bytes it reads are present) and the payload is
shorter than the computed length, `UnPack` returns success, sets the
group's lost flag, and appends no payload bytes from the packet (the
buffer is either unchanged or freshly cleared).  When the payload ends
inside the descriptor prefix itself, `UnPack` instead returns a hard
error (see the counterexample). -/
theorem unpack_truncated_descriptor (u : VP8UnPacker) (pkg : RtpPacket) (hl : Nat)
    (hp : pkg.Payload ≠ [])
    (hd : vp8DescriptorLength pkg.Payload = .ok hl)
    (hshort : pkg.Payload.length < hl) :
    (UnPack u pkg).1 = .ok () ∧
    (UnPack u pkg).2.1.lost = true ∧
    ((UnPack u pkg).2.1.frameBuffer = [] ∨
      (UnPack u pkg).2.1.frameBuffer = u.frameBuffer) := by
  rw [UnPack, if_neg (payload_len_pos hp)]
  simp only [hd]
  rw [if_pos hshort]
  split
  · exact ⟨rfl, rfl, Or.inl rfl⟩
  · refine ⟨rfl, rfl, ?_⟩
    rcases boundaryStep_buffer u pkg with hB | hB
    · exact Or.inl hB
    · exact Or.inr hB

/-- Claim C1, witness: on `shortDescPkt` (descriptor length 3 computed
from a 2-byte payload) `UnPack` succeeds, sets the lost flag, and leaves
the buffer without bytes from the packet. -/
theorem unpack_truncated_descriptor_witness :
    (UnPack NewVP8UnPacker shortDescPkt).1 = .ok () ∧
    (UnPack NewVP8UnPacker shortDescPkt).2.1.lost = true ∧
    ((UnPack NewVP8UnPacker shortDescPkt).2.1.frameBuffer = [] ∨
      (UnPack NewVP8UnPacker shortDescPkt).2.1.frameBuffer = NewVP8UnPacker.frameBuffer) :=
  unpack_truncated_descriptor NewVP8UnPacker shortDescPkt 3 (by decide) rfl (by decide)

/-- Claim C2, counterexample: the frame `[0x01, 0, 0, 0x9d, 0x01, 0x2a,
0, 0, 0, 0]` is not a key frame (its frame-type bit is 1), yet the
`GetVP8Resloution` variant cited by the claim returns a resolution
instead of a NotKeyFrame error, because it performs no key-frame
check. -/
theorem getVP8Resloution_no_key_check :
    IsVP8KeyFrame [0x01, 0x00, 0x00, 0x9d, 0x01, 0x2a, 0x00, 0x00, 0x00, 0x00] = false ∧
    GetVP8Resloution [0x01, 0x00, 0x00, 0x9d, 0x01, 0x2a, 0x00, 0x00, 0x00, 0x00] =
      some (.ok (0, 0)) :=
  ⟨rfl, rfl⟩

/-- Claim C2, amended: the claimed behaviour holds for the `GetResloution`
variant (`part_000`): on every frame that is not a key frame it fails with
the not-a-key-frame error, and on a key frame whose 3 bytes after the tag
are not the start code `0x9D 0x01 0x2A` it fails with the start-code
error.  The `GetVP8Resloution` variant in `vp8.go` performs no key-frame
check (see the counterexample). -/
theorem getResloution_key_frame_spec :
    (∀ frame : List Nat, IsKeyFrame frame = false →
      GetResloution frame = .error "the frame is not Key frame") ∧
    (∀ frame : List Nat, IsKeyFrame frame = true → 7 ≤ (frame.drop 3).length →
      ¬((frame.drop 3).getD 0 0 = 0x9d ∧ (frame.drop 3).getD 1 0 = 0x01 ∧
        (frame.drop 3).getD 2 0 = 0x2a) →
      GetResloution frame = .error "not find Start code") := by
  constructor
  · intro f h
    simp [GetResloution, h]
  · intro f h hlen hsc
    simp only [GetResloution, h, if_true]
    rw [DecodeKeyFrameHead, if_neg (by omega), if_pos (by tauto)]

/-- Claim C2, witness: a non-key frame yields the not-a-key-frame error
and a key frame with a wrong start code yields the start-code error. -/
theorem getResloution_key_frame_spec_witness :
    GetResloution [0x01, 0x00, 0x00] = .error "the frame is not Key frame" ∧
    GetResloution [0x00, 0x00, 0x00, 0xAA, 0x01, 0x2a, 0x00, 0x00, 0x00, 0x00] =
      .error "not find Start code" :=
  ⟨getResloution_key_frame_spec.1 [0x01, 0x00, 0x00] rfl,
   getResloution_key_frame_spec.2 [0x00, 0x00, 0x00, 0xAA, 0x01, 0x2a, 0x00, 0x00, 0x00, 0x00]
     rfl (by decide) (by decide)⟩

/-- Claim C3, counterexample: on the truncated-descriptor packet
`truncatedPkt`, `UnPack` returns an error yet the state differs from the
state before the call (the boundary fields were already updated),
contradicting the claim that every error return leaves the state exactly
as it was. -/
theorem unpack_error_state_counterexample :
    (UnPack NewVP8UnPacker truncatedPkt).1 =
      .error "invalid vp8 payload: short extended header" ∧
    (UnPack NewVP8UnPacker truncatedPkt).2.1 ≠ NewVP8UnPacker :=
  ⟨rfl, by decide⟩

/-- Claim C3, amended: the empty-payload failure aborts before any state
mutation (the state and the emitted events are untouched); the two
descriptor hard errors can occur after the boundary-handling updates, but
on any error return no payload bytes from the failing packet are appended:
the buffer is either exactly the previous buffer or freshly cleared. -/
theorem unpack_error_state :
    (∀ (u : VP8UnPacker) (pkg : RtpPacket), pkg.Payload = [] →
      UnPack u pkg = (.error "vp8 rtp packet payload is empty", u, [])) ∧
    (∀ (u : VP8UnPacker) (pkg : RtpPacket) (e : String) (u2 : VP8UnPacker)
        (ev : List FrameEvent), UnPack u pkg = (.error e, u2, ev) →
      u2.frameBuffer = u.frameBuffer ∨ u2.frameBuffer = []) := by
  constructor
  · intro u pkg h
    rw [UnPack, if_pos (by simp [h])]
  · intro u pkg e u2 ev h
    rw [UnPack] at h
    split at h
    · have h2 : u = u2 := congrArg (fun t => t.2.1) h
      subst h2
      exact Or.inl rfl
    · cases hd : vp8DescriptorLength pkg.Payload with
      | ok hl =>
        simp only [hd] at h
        split at h <;> split at h <;> simp at h
      | error e2 =>
        simp only [hd] at h
        have h2 : { (boundaryStep u pkg).1 with
            lastSequence := pkg.Header.SequenceNumber } = u2 :=
          congrArg (fun t => t.2.1) h
        rw [← h2]
        rcases boundaryStep_buffer u pkg with hB | hB
        · exact Or.inr hB
        · exact Or.inl hB

/-- Claim C3, witness: an empty-payload packet produces the empty-payload
error with the state and event list untouched. -/
theorem unpack_error_state_witness :
    UnPack NewVP8UnPacker emptyPkt =
      (.error "vp8 rtp packet payload is empty", NewVP8UnPacker, []) :=
  unpack_error_state.1 NewVP8UnPacker emptyPkt rfl

/-- Claim C4: when a packet with a different timestamp arrives while the
depacketizer is building with a non-empty buffer, the previous group's
buffer is emitted first through the frame callback with the lost flag
set, and the resulting buffer holds no bytes of the previous group (it is
empty or a suffix of the new packet's payload). -/
theorem unpack_boundary_flush (u : VP8UnPacker) (pkg : RtpPacket)
    (hb : u.building = true) (hbuf : u.frameBuffer ≠ [])
    (hts : pkg.Header.Timestamp ≠ u.timestamp) (hp : pkg.Payload ≠ []) :
    ∃ rest, (UnPack u pkg).2.2 =
        { frameData := u.frameBuffer, timestamp := u.timestamp, lost := true } :: rest ∧
      ((UnPack u pkg).2.1.frameBuffer = [] ∨
        ∃ hl, (UnPack u pkg).2.1.frameBuffer = pkg.Payload.drop hl) := by
  rw [UnPack, if_neg (payload_len_pos hp)]
  simp only [boundaryStep_flush u pkg hb hbuf hts]
  cases hd : vp8DescriptorLength pkg.Payload with
  | error e => exact ⟨[], rfl, Or.inl rfl⟩
  | ok hl =>
    simp only []
    split
    · refine ⟨_, rfl, Or.inl rfl⟩
    · split
      · exact ⟨[], rfl, Or.inl rfl⟩
      · exact ⟨[], rfl, Or.inr ⟨hl, by simp⟩⟩

/-- Claim C4, witness: while building timestamp 100 with buffer
`[1, 2, 3]`, a packet for timestamp 101 flushes the old buffer as a lost
frame before the new group starts. -/
theorem unpack_boundary_flush_witness :
    ∃ rest, (UnPack buildingState newTsPkt).2.2 =
        { frameData := [1, 2, 3], timestamp := 100, lost := true } :: rest ∧
      ((UnPack buildingState newTsPkt).2.1.frameBuffer = [] ∨
        ∃ hl, (UnPack buildingState newTsPkt).2.1.frameBuffer = newTsPkt.Payload.drop hl) :=
  unpack_boundary_flush buildingState newTsPkt rfl (by decide) (by decide) (by decide)

/-- Claim C5: `GetVP9Resloution` on the minimal profile-0 key-frame
header encoding width-minus-1 = 1279 and height-minus-1 = 719 returns
`(1280, 720)`; and in general the frame-size tail returns the 16-bit
width-minus-1 and height-minus-1 fields plus one, reading them 33 bits
after the render-size flag when it is set (skipping the 32 render-size
bits) and directly after it otherwise. -/
theorem vp9_resolution_spec :
    GetVP9Resloution [0x80, 0x49, 0x83, 0x42, 0x00, 0x27, 0xF8, 0x16, 0x78] =
      some (1280, 720) ∧
    (∀ (d : List Nat) (p : Nat), bitAt d p = 1 → p + 65 ≤ 8 * d.length →
      vp9FrameSize { data := d, pos := p } =
        some (getBitsVal d (p + 33) 16 + 1, getBitsVal d (p + 49) 16 + 1)) ∧
    (∀ (d : List Nat) (p : Nat), bitAt d p = 0 → p + 33 ≤ 8 * d.length →
      vp9FrameSize { data := d, pos := p } =
        some (getBitsVal d (p + 1) 16 + 1, getBitsVal d (p + 17) 16 + 1)) :=
  ⟨by decide, vp9fs_render_set, vp9fs_render_unset⟩

/-- Claim C5, witness: on an all-ones 9-byte buffer the render flag at
bit 0 is set and the frame-size tail returns `(65536, 65536)`. -/
theorem vp9_resolution_spec_witness :
    vp9FrameSize { data := [255, 255, 255, 255, 255, 255, 255, 255, 255], pos := 0 } =
      some (65536, 65536) := by
  have h := vp9_resolution_spec.2.1 [255, 255, 255, 255, 255, 255, 255, 255, 255] 0
    (by decide) (by decide)
  rw [h]
  decide

/-- Claim C6: on byte inputs, `DecodeFrameTag` fails with the too-short
error below 3 bytes, and otherwise returns exactly the fields of
`frameTagOfPacked` applied to the 24-bit little-endian packing of
bytes 0-2 (bit 0 frame type, bits 1-3 version, bit 4 display, bits 5-23
first partition size); the first partition size is always below `2 ^ 19`,
and the function is deterministic. -/
theorem decodeFrameTag_spec (frame : List Nat) (hbytes : ∀ b ∈ frame, b < 256) :
    (frame.length < 3 → DecodeFrameTag frame = .error "frame bytes < 3") ∧
    (3 ≤ frame.length →
      DecodeFrameTag frame =
        .ok (frameTagOfPacked
          (frame.getD 0 0 + 256 * frame.getD 1 0 + 65536 * frame.getD 2 0))) ∧
    (∀ tag, DecodeFrameTag frame = .ok tag → tag.FirstPartSize < 524288) ∧
    DecodeFrameTag frame = DecodeFrameTag frame := by
  refine ⟨fun h => by simp [DecodeFrameTag, h], fun h => ?_, fun tag htag => ?_, rfl⟩
  · have h0 : frame.getD 0 0 < 256 := by
      have : frame.getD 0 0 ∈ frame := by
        rw [List.getD_eq_getElem frame 0 (show 0 < frame.length by omega)]
        exact List.getElem_mem _
      exact hbytes _ this
    have h1 : frame.getD 1 0 < 256 := by
      have : frame.getD 1 0 ∈ frame := by
        rw [List.getD_eq_getElem frame 0 (show 1 < frame.length by omega)]
        exact List.getElem_mem _
      exact hbytes _ this
    rw [DecodeFrameTag, if_neg (by omega)]
    simp only [frameTagOfPacked, Except.ok.injEq]
    rw [pack3_eq _ _ _ h0 h1]
    set t := frame.getD 0 0 + 256 * frame.getD 1 0 + 65536 * frame.getD 2 0 with ht
    simp only [VP8FrameTag.mk.injEq]
    refine ⟨Nat.and_one_is_mod t, ?_, ?_, ?_⟩
    · rw [Nat.shiftRight_eq_div_pow]
      have := and_mask_mod (t / 2 ^ 1) 3
      norm_num at this ⊢
      exact this
    · rw [Nat.shiftRight_eq_div_pow, Nat.and_one_is_mod]
    · rw [Nat.shiftRight_eq_div_pow]
      have := and_mask_mod (t / 2 ^ 5) 19
      norm_num at this ⊢
      exact this
  · rw [DecodeFrameTag] at htag
    by_cases hlen : frame.length < 3
    · rw [if_pos hlen] at htag; exact absurd htag (by simp)
    · rw [if_neg hlen] at htag
      simp only [Except.ok.injEq] at htag
      rw [← htag]
      exact lt_of_le_of_lt Nat.and_le_right (by norm_num)

/-- Claim C6, witness: decoding `[1, 2, 3]` yields the fields of the
packed value `1 + 256 * 2 + 65536 * 3`. -/
theorem decodeFrameTag_spec_witness :
    DecodeFrameTag [1, 2, 3] = .ok (frameTagOfPacked (1 + 256 * 2 + 65536 * 3)) :=
  (decodeFrameTag_spec [1, 2, 3] (by decide)).2.1 (by decide)

/-- Claim C7: on byte inputs, `DecodeKeyFrameHead` fails with the
too-short error below 7 bytes, fails with the start-code error when the
first three bytes are not `0x9D 0x01 0x2A`, and otherwise returns width
as the low 14 bits of the little-endian pair at offsets 3-4, horiz_scale
as the top 2 bits of byte 4, and height and vert_scale likewise from
offsets 5-6 (the fields of `keyFrameHeadOfBytes`). -/
theorem decodeKeyFrameHead_spec (frame : List Nat) (hbytes : ∀ b ∈ frame, b < 256) :
    (frame.length < 7 → DecodeKeyFrameHead frame = .error "frame bytes < 3") ∧
    (7 ≤ frame.length →
      (¬(frame.getD 0 0 = 0x9d ∧ frame.getD 1 0 = 0x01 ∧ frame.getD 2 0 = 0x2a) →
        DecodeKeyFrameHead frame = .error "not find Start code") ∧
      (frame.getD 0 0 = 0x9d → frame.getD 1 0 = 0x01 → frame.getD 2 0 = 0x2a →
        DecodeKeyFrameHead frame =
          .ok (keyFrameHeadOfBytes (frame.getD 3 0) (frame.getD 4 0)
            (frame.getD 5 0) (frame.getD 6 0)))) := by
  refine ⟨fun h => by simp [DecodeKeyFrameHead, h], fun h => ⟨fun hsc => ?_, fun h0 h1 h2 => ?_⟩⟩
  · rw [DecodeKeyFrameHead, if_neg (by omega), if_pos (by tauto)]
  · have hf3 : frame.getD 3 0 < 256 := by
      have : frame.getD 3 0 ∈ frame := by
        rw [List.getD_eq_getElem frame 0 (show 3 < frame.length by omega)]
        exact List.getElem_mem _
      exact hbytes _ this
    have hf5 : frame.getD 5 0 < 256 := by
      have : frame.getD 5 0 ∈ frame := by
        rw [List.getD_eq_getElem frame 0 (show 5 < frame.length by omega)]
        exact List.getElem_mem _
      exact hbytes _ this
    rw [DecodeKeyFrameHead, if_neg (by omega), if_neg (by rw [h0, h1, h2]; decide)]
    simp only [keyFrameHeadOfBytes, Except.ok.injEq, VP8KeyFrameHead.mk.injEq]
    refine ⟨width_pack _ _ hf3, width_pack _ _ hf5, ?_, ?_⟩
    · rw [Nat.shiftRight_eq_div_pow]
    · rw [Nat.shiftRight_eq_div_pow]

/-- Claim C7, witness: decoding a valid 7-byte key-frame head with bytes
`0xFF 0xFF 0xCF 0x42` after the start code yields the reference
assembly's fields. -/
theorem decodeKeyFrameHead_spec_witness :
    DecodeKeyFrameHead [0x9d, 0x01, 0x2a, 0xFF, 0xFF, 0xCF, 0x42] =
      .ok (keyFrameHeadOfBytes 0xFF 0xFF 0xCF 0x42) :=
  ((decodeKeyFrameHead_spec [0x9d, 0x01, 0x2a, 0xFF, 0xFF, 0xCF, 0x42]
    (by decide)).2 (by decide)).2 rfl rfl rfl

/-- Claim C8: a same-timestamp packet while building whose sequence
number is not the previous one plus one modulo `2 ^ 16` sets the group's
lost flag; concretely, packets with sequence numbers 10 then 12 (second
with the marker) emit a frame with the lost flag set, while the
wraparound pair 65535 then 0 emits a frame without it. -/
theorem unpack_seq_gap :
    (∀ (u : VP8UnPacker) (pkg : RtpPacket), u.building = true →
      pkg.Header.Timestamp = u.timestamp → pkg.Payload ≠ [] →
      (u.lastSequence + 1) % 65536 ≠ pkg.Header.SequenceNumber →
      (UnPack u pkg).2.1.lost = true) ∧
    (UnPack (UnPack NewVP8UnPacker
        { Header := { SequenceNumber := 10, Timestamp := 100, Marker := 0 },
          Payload := [0x00, 0xAA] }).2.1
      { Header := { SequenceNumber := 12, Timestamp := 100, Marker := 1 },
        Payload := [0x00, 0xBB] }).2.2 =
      [{ frameData := [0xAA, 0xBB], timestamp := 100, lost := true }] ∧
    (UnPack (UnPack NewVP8UnPacker
        { Header := { SequenceNumber := 65535, Timestamp := 100, Marker := 0 },
          Payload := [0x00, 0xAA] }).2.1
      { Header := { SequenceNumber := 0, Timestamp := 100, Marker := 1 },
        Payload := [0x00, 0xBB] }).2.2 =
      [{ frameData := [0xAA, 0xBB], timestamp := 100, lost := false }] := by
  refine ⟨fun u pkg hb hts hp hgap => ?_, by decide, by decide⟩
  rw [UnPack, if_neg (payload_len_pos hp)]
  simp only [boundaryStep_gap u pkg hb hts hgap]
  cases hd : vp8DescriptorLength pkg.Payload with
  | error e => rfl
  | ok hl =>
    simp only []
    split
    · split <;> rfl
    · split <;> rfl

/-- Claim C8, witness: while building timestamp 100 at sequence 10, a
same-timestamp packet with sequence 12 sets the lost flag. -/
theorem unpack_seq_gap_witness :
    (UnPack gapState gapPkt).2.1.lost = true :=
  unpack_seq_gap.1 gapState gapPkt rfl rfl (by decide) (by decide)

/-- Claim C9: the invariant that the frame buffer is non-empty only while
building holds in the initial state and is preserved by every call to
`UnPack`, whatever packet it receives and whatever it returns. -/
theorem unpack_inv :
    UnPackerInv NewVP8UnPacker ∧
    ∀ (u : VP8UnPacker) (pkg : RtpPacket), UnPackerInv u → UnPackerInv (UnPack u pkg).2.1 := by
  constructor
  · intro h; exact absurd rfl h
  · intro u pkg hInv
    rw [UnPack]
    split
    · exact hInv
    · cases hd : vp8DescriptorLength pkg.Payload with
      | error e =>
        simp only [hd]
        intro _
        exact boundaryStep_building u pkg
      | ok hl =>
        simp only [hd]
        split
        · intro h; exact absurd rfl h
        · split
          · intro _; exact boundaryStep_building u pkg
          · intro _; exact boundaryStep_building u pkg

/-- Claim C9, witness: the invariant holds after feeding the fresh
depacketizer one ordinary packet. -/
theorem unpack_inv_witness :
    UnPackerInv (UnPack NewVP8UnPacker firstPkt).2.1 :=
  unpack_inv.2 NewVP8UnPacker firstPkt (fun h => absurd rfl h)

/-- Claim C10: `CreateVP9VpcCExtradata` fails only on the empty input
(the unguarded read of byte 0, modelled as `none`); on every non-empty
input it succeeds with an 8-byte record that depends only on byte 0, so
it performs no key-frame or validity check beyond reading byte 0. -/
theorem createVP9VpcC_spec :
    CreateVP9VpcCExtradata [] = none ∧
    ∀ (b : Nat) (rest : List Nat),
      ∃ r, CreateVP9VpcCExtradata (b :: rest) = some r ∧ r.length = 8 ∧
        CreateVP9VpcCExtradata (b :: rest) = CreateVP9VpcCExtradata [b] :=
  ⟨rfl, fun b rest => ⟨_, rfl, by simp, rfl⟩⟩
